import Mathlib

/-! Overview.
Verification of the cd-ripper repository's track matcher, multi-disc
sequencer, and album pipeline, shallowly embedded from
`cd_ripper/__init__.py` and `cd_ripper/raw.py`.

Filesystem entries are modelled by their file names (strings); a directory
is the list of names in iteration order.
-/

/-- Index of the last occurrence of the dot character in a character list,
mirroring CPython's `name.rfind('.')` (`none` for "not found"). -/
def lastDotIdx : List Char → Option Nat
  | [] => none
  | c :: t =>
    match lastDotIdx t with
    | some i => some (i + 1)
    | none => if c == '.' then some 0 else none

/-- Python `pathlib.PurePath.stem`: the file name with its last suffix removed.
CPython computes `i = name.rfind('.')` and strips from `i` when
`0 < i < len(name) - 1`, else returns the name unchanged. -/
def pyStem (s : String) : String :=
  match lastDotIdx s.data with
  | some i => if 0 < i && i + 1 < s.data.length then String.mk (s.data.take i) else s
  | none => s

/-- Python `pathlib.PurePath.suffix`: the last extension including the dot, or ""
when there is none (same `0 < i < len(name) - 1` rule as `pyStem`). -/
def pySuffix (s : String) : String :=
  match lastDotIdx s.data with
  | some i => if 0 < i && i + 1 < s.data.length then String.mk (s.data.drop i) else ""
  | none => ""

/-- Python's substring test `sub in s` on character lists: `sub` occurs
contiguously in `s` (the empty string occurs in everything). -/
def containsSub (sub : List Char) : List Char → Bool
  | [] => sub.isEmpty
  | c :: t => sub.isPrefixOf (c :: t) || containsSub sub t

/-- Python's `sub in s` for strings. -/
def strContains (s sub : String) : Bool :=
  containsSub sub.data s.data

/-- Python's `int(s)` restricted to the non-negative case: `some` of the
value when `s` is a nonempty string of decimal digits, `none` (a raised
`ValueError`) otherwise. -/
def pyInt? (s : List Char) : Option Nat :=
  if s ≠ [] && s.all (fun c => c.isDigit) then
    some (s.foldl (fun acc c => acc * 10 + (c.toNat - 48)) 0)
  else
    none

/-- Errors raised by `match_titles_to_files` (`__init__.py` lines 82-98):
the count-mismatch `ValueError` and the two `RuntimeError` branches. -/
inductive MatchErr
  | countMismatch (numFiles numTitles : Nat)
  | ambiguous (trackNumber : Nat) (title : String) (candidates : List String)
  | noMatch (trackNumber : Nat) (title : String)
  deriving DecidableEq, Repr

/-- The suffix filter of `__init__.py` line 79:
`f.suffix in ['.wav', '.mp3']`. -/
def is_audio_file (f : String) : Bool :=
  pySuffix f == ".wav" || pySuffix f == ".mp3"

/-- Source comprehension `music_files = [f for f in directory.iterdir() if f.suffix in ['.wav', '.mp3']]`. -/
def music_files_of (dirFiles : List String) : List String :=
  dirFiles.filter is_audio_file

/-- The candidate test of `__init__.py` line 90:
`str(track_number) in f.stem or title in f.stem`. -/
def fileMatches (track_number : Nat) (title : String) (f : String) : Bool :=
  strContains (pyStem f) (toString track_number) || strContains (pyStem f) title

/-- The loop of `__init__.py` lines 87-105 over the reversed title list.
`n` is `len(title_list)`, `i` the enumeration counter, so
`track_number = n - i`.  One candidate: claim it (remove it from
`music_files` via `m != possible_tracks[0]`) and recurse; the final
reversal of the accumulated pairs is realised by appending the pair for
the current (highest-numbered) track after the recursive result. -/
def match_loop (n : Nat) : Nat → List String → List String → Except MatchErr (List (String × String))
  | _, [], _ => .ok []
  | i, title :: rest, music_files =>
    let track_number := n - i
    match music_files.filter (fileMatches track_number title) with
    | [] => .error (.noMatch track_number title)
    | [t] =>
      (match_loop n (i + 1) rest (music_files.filter (fun m => m != t))).map
        (fun m => m ++ [(title, t)])
    | t1 :: t2 :: ts => .error (.ambiguous track_number title (t1 :: t2 :: ts))

/-- Function `match_titles_to_files` (`__init__.py` lines 75-105): filter the
directory to audio files, fail on count mismatch, then run the matching
loop from the last title to the first. -/
def match_titles_to_files (title_list : List String) (dirFiles : List String) :
    Except MatchErr (List (String × String)) :=
  if title_list.length != (music_files_of dirFiles).length then
    .error (.countMismatch (music_files_of dirFiles).length title_list.length)
  else
    match_loop title_list.length 0 title_list.reverse (music_files_of dirFiles)

/-- Decidable transcript of the uniqueness hypothesis of the matcher run:
at every step of `match_loop` (last title first, claimed candidates
removed), the filter yields exactly one candidate. -/
def unique_run (n : Nat) : Nat → List String → List String → Bool
  | _, [], _ => true
  | i, title :: rest, music_files =>
    match music_files.filter (fileMatches (n - i) title) with
    | [t] => unique_run n (i + 1) rest (music_files.filter (fun m => m != t))
    | _ => false

/-- Destination name built at `raw.py` line 66:
`f"{prefix}{'0' if number < 10 else ''}{number}.wav"` (the fixed parent
directory `album / "raw"` is elided). -/
def target_name (prefixStr : String) (number : Nat) : String :=
  prefixStr ++ (if number < 10 then "0" else "") ++ toString number ++ ".wav"

/-- Disc-name stem computed at `raw.py` line 100:
`f"cd0{n}track" if n < 9 else f"cd{n}track"`. -/
def prefix_for_disc (n : Nat) : String :=
  if n < 9 then "cd0" ++ toString n ++ "track" else "cd" ++ toString n ++ "track"

/-- Source `raw.py` lines 64-65: `name = _file.stem.split(".")[0]` followed by
`int(name[5:7])`.  `split(".")[0]` is the part of the stem before its
first dot, and the slice `[5:7]` clamps at the end of the string. -/
def parse_raw_index (fname : String) : Option Nat :=
  pyInt? ((((pyStem fname).data.takeWhile (fun c => !(c == '.'))).drop 5).take 2)

/-- Function `move_wav_files_to_album` (`raw.py` lines 51-73) on a scratch
directory listed in iteration order.  Yields the ordered (source,
destination) pairs — logged when `mock_run`, executed by `shutil.move`
otherwise — together with the scratch directory's contents after the
loop (a live run empties it) and the function's return value
`len(list(wav.iterdir()))`, which is taken on that post-loop listing.
`none` models the `ValueError` from `int` on an unparsable name. -/
def move_wav_files_to_album (scratch : List String) (initial_index : Nat)
    (prefixStr : String) (mock_run : Bool) :
    Option (List (String × String) × List String × Nat) :=
  match scratch.mapM (fun f => (parse_raw_index f).map
      (fun number => (f, target_name prefixStr (number + initial_index)))) with
  | none => none
  | some moves =>
    let remaining := if mock_run then scratch else []
    some (moves, remaining, remaining.length)

/-- The per-disc loop of `rip_album_from_cd` (`raw.py` lines 93-102):
disc counter `n`, running offset `track_num`, and the sequence of scratch
directory contents each disc's rip deposits.  Accumulates every
(source, destination) pair in order; `track_num` grows by each call's
return value. -/
def rip_loop (mock_run : Bool) : Nat → Nat → List (List String) → Option (List (String × String))
  | _, _, [] => some []
  | n, track_num, scratch :: rest =>
    match move_wav_files_to_album scratch track_num (prefix_for_disc n) mock_run with
    | none => none
    | some (moves, _, cnt) =>
      match rip_loop mock_run (n + 1) (track_num + cnt) rest with
      | none => none
      | some more => some (moves ++ more)

/-- Function `rip_album_from_cd` (`raw.py` lines 83-102), abstracted over the
sequence of ripped scratch-directory contents (one list of file names
per disc, the state of the temporary directory when that disc is
relocated): returns the ordered (source, destination) pairs recorded
(dry run) or executed (live run). -/
def rip_album_from_cd (discs : List (List String)) (mock_run : Bool) :
    Option (List (String × String)) :=
  rip_loop mock_run 1 0 discs

/-- Outcome of the overwrite prompt loop of `wav_to_mp3`
(`__init__.py` lines 57-64). -/
inductive OverwriteChoice
  | proceed
  | keep
  deriving DecidableEq, Repr

/-- The `while True` prompt loop (`__init__.py` lines 57-64) consuming
successive interactive answers: `'y'` breaks out to overwrite, `'N'`
returns the existing file, anything else prints an error and asks again.
`none` models blocking forever because the answer stream is exhausted. -/
def ask_overwrite : List String → Option OverwriteChoice
  | [] => none
  | ans :: rest =>
    if ans == "y" then some .proceed
    else if ans == "N" then some .keep
    else ask_overwrite rest

/-- Observable outcome of `wav_to_mp3`: whether ffmpeg was invoked, and
the returned `.mp3` path. -/
structure ConvertOutcome where
  ranTranscoder : Bool
  returned : String
  deriving DecidableEq, Repr

/-- Function `wav_to_mp3` (`__init__.py` lines 31-72) for a source file with stem
`wavStem`, given whether the target `.mp3` already exists and the stream
of interactive answers: when the target exists the prompt loop runs
before ffmpeg; `'N'` returns the existing path without transcoding,
`'y'` falls through to the ffmpeg invocation. -/
def wav_to_mp3 (wavStem : String) (mp3Exists : Bool) (answers : List String) :
    Option ConvertOutcome :=
  if mp3Exists then
    match ask_overwrite answers with
    | none => none
    | some .keep => some ⟨false, wavStem ++ ".mp3"⟩
    | some .proceed => some ⟨true, wavStem ++ ".mp3"⟩
  else
    some ⟨true, wavStem ++ ".mp3"⟩

/-- The config-resolution failure of `__init__.py` lines 177-183: the
`IndexError` on an empty `.json` listing re-raised as
`FileNotFoundError`. -/
inductive ConfigErr
  | noJsonFound
  deriving DecidableEq, Repr

/-- Config resolution when no explicit path is given (`__init__.py`
lines 177-183): `[f for f in album_directory.iterdir() if f.suffix ==
'.json'][0]`, failing only when the listing is empty. -/
def resolve_config_json (dirFiles : List String) : Except ConfigErr String :=
  match dirFiles.filter (fun f => pySuffix f == ".json") with
  | [] => .error .noJsonFound
  | f :: _ => .ok f

/-- The transcoding loop of `populate_album_metadata` (`__init__.py`
lines 195-198) run over the snapshot `files = list(album_directory.iterdir())`,
threading the live directory contents `cur`: each `.wav` in the snapshot
gains a sibling `.mp3` (stem preserved, `keep_wav=True`, no output
directory).  `none` models the blocking overwrite prompt taken inside
`wav_to_mp3` when the target `.mp3` already exists. -/
def transcode_step : List String → List String → Option (List String)
  | cur, [] => some cur
  | cur, f :: rest =>
    if pySuffix f == ".wav" then
      if (pyStem f ++ ".mp3") ∈ cur then none
      else transcode_step (cur ++ [pyStem f ++ ".mp3"]) rest
    else transcode_step cur rest

/-- The `.mp3` names the transcoding loop creates for the `.wav` entries
of a directory snapshot, in snapshot order. -/
def wav_mp3_names (snapshot : List String) : List String :=
  (snapshot.filter (fun f => pySuffix f == ".wav")).map (fun f => pyStem f ++ ".mp3")

/-- Step (2) of `populate_album_metadata`: transcode every `.wav` found
in the directory snapshot, returning the directory contents afterwards. -/
def wav_to_mp3_all (dirFiles : List String) : Option (List String) :=
  transcode_step dirFiles dirFiles

/-- Step (4) of `populate_album_metadata` (`__init__.py` lines 204-208):
one `add_metadata` call per matched pair, with 1-based track numbers. -/
def tag_calls (mapping : List (String × String)) : List (String × String × Nat) :=
  mapping.enum.map (fun p => (p.2.1, p.2.2, p.1 + 1))

/-- Steps (2)-(4) of `populate_album_metadata` (`__init__.py` lines
194-208) from the loaded Title List and the target directory's initial
contents: transcode, match, then emit the tagging calls; any raised
matcher error aborts before tagging. -/
def populate_album_metadata (titles : List String) (dirFiles : List String) :
    Option (Except MatchErr (List (String × String × Nat))) :=
  match wav_to_mp3_all dirFiles with
  | none => none
  | some dirAfter =>
    some (match match_titles_to_files titles dirAfter with
      | .error e => .error e
      | .ok mapping => .ok (tag_calls mapping))

/-! Unfolding equations and helper lemmas. -/

theorem match_loop_nil (n i : Nat) (files : List String) :
    match_loop n i [] files = Except.ok [] := rfl

theorem match_loop_cons (n i : Nat) (title : String) (rest files : List String) :
    match_loop n i (title :: rest) files =
      match files.filter (fileMatches (n - i) title) with
      | [] => Except.error (.noMatch (n - i) title)
      | [t] => (match_loop n (i + 1) rest (files.filter (fun m => m != t))).map
          (fun m => m ++ [(title, t)])
      | t1 :: t2 :: ts => Except.error (.ambiguous (n - i) title (t1 :: t2 :: ts)) := by
  rw [match_loop]

theorem unique_run_cons (n i : Nat) (title : String) (rest files : List String) :
    unique_run n i (title :: rest) files =
      match files.filter (fileMatches (n - i) title) with
      | [t] => unique_run n (i + 1) rest (files.filter (fun m => m != t))
      | _ => false := by
  rw [unique_run]

/-- Removing one claimed candidate by the source's comprehension
`[m for m in music_files if m != possible_tracks[0]]` permutes a
duplicate-free candidate list into the claimed element plus the rest. -/
theorem filter_bne_perm (t : String) :
    ∀ files : List String, files.Nodup → t ∈ files →
      List.Perm files (t :: files.filter (fun m => m != t)) := by
  intro files
  induction files with
  | nil => intro _ h; cases h
  | cons a l ih =>
    intro hnd hmem
    rcases List.nodup_cons.mp hnd with ⟨hna, hnd'⟩
    rcases List.mem_cons.mp hmem with heq | hmem'
    · subst heq
      have hfl : l.filter (fun m => m != t) = l :=
        List.filter_eq_self.mpr fun b hb => bne_iff_ne.mpr fun e => hna (e ▸ hb)
      simp [List.filter_cons, hfl]
    · have hat : (a != t) = true := bne_iff_ne.mpr fun e => hna (e ▸ hmem')
      have hfc : (a :: l).filter (fun m => m != t) = a :: l.filter (fun m => m != t) := by
        simp [List.filter_cons, hat]
      rw [hfc]
      exact ((ih hnd' hmem').cons a).trans (List.Perm.swap t a _)

/-- Core invariant of the matching loop: when every step's candidate
filter is a singleton, the loop succeeds, the produced titles are the
processed titles back in original order, and the claimed files are a
permutation of the candidate list. -/
theorem match_loop_unique_ok (n : Nat) :
    ∀ (titlesRev : List String) (i : Nat) (files : List String),
      files.Nodup → titlesRev.length = files.length →
      unique_run n i titlesRev files = true →
      ∃ m, match_loop n i titlesRev files = Except.ok m ∧
        m.map Prod.fst = titlesRev.reverse ∧ List.Perm (m.map Prod.snd) files := by
  intro titlesRev
  induction titlesRev with
  | nil =>
    intro i files _ hlen _
    have hfe : files = [] := List.eq_nil_of_length_eq_zero hlen.symm
    subst hfe
    exact ⟨[], rfl, rfl, List.Perm.refl []⟩
  | cons title rest ih =>
    intro i files hnd hlen huniq
    rw [unique_run_cons] at huniq
    cases hf : files.filter (fileMatches (n - i) title) with
    | nil => rw [hf] at huniq; cases huniq
    | cons t ts =>
      cases ts with
      | cons t2 ts2 => rw [hf] at huniq; cases huniq
      | nil =>
        rw [hf] at huniq
        replace huniq : unique_run n (i + 1) rest (files.filter (fun m => m != t)) = true := huniq
        have htmem : t ∈ files := by
          have : t ∈ files.filter (fileMatches (n - i) title) := by
            rw [hf]; exact List.mem_singleton_self t
          exact (List.mem_filter.mp this).1
        have hperm : List.Perm files (t :: files.filter (fun m => m != t)) :=
          filter_bne_perm t files hnd htmem
        have hnd' : (files.filter (fun m => m != t)).Nodup := hnd.filter _
        have hlen' : rest.length = (files.filter (fun m => m != t)).length := by
          have hl := hperm.length_eq
          simp only [List.length_cons] at hl hlen
          omega
        obtain ⟨m, hok, hfst, hsnd⟩ := ih (i + 1) _ hnd' hlen' huniq
        refine ⟨m ++ [(title, t)], ?_, ?_, ?_⟩
        · rw [match_loop_cons, hf]
          show (match_loop n (i + 1) rest (files.filter (fun m => m != t))).map
              (fun m => m ++ [(title, t)]) = Except.ok (m ++ [(title, t)])
          rw [hok]
          rfl
        · simp [hfst, List.reverse_cons]
        · have h1 : List.Perm (m.map Prod.snd ++ [t]) (t :: m.map Prod.snd) :=
            List.perm_append_singleton t _
          have h2 : List.Perm (t :: m.map Prod.snd) (t :: files.filter (fun m => m != t)) :=
            hsnd.cons t
          simpa using (h1.trans h2).trans hperm.symm

/-- Shared core of the count-mismatch behaviour: unequal cardinalities
short-circuit the matcher into the `ValueError` branch. -/
theorem match_titles_to_files_len_ne (title_list dirFiles : List String)
    (h : title_list.length ≠ (music_files_of dirFiles).length) :
    match_titles_to_files title_list dirFiles =
      Except.error (.countMismatch (music_files_of dirFiles).length title_list.length) := by
  have hb : (title_list.length != (music_files_of dirFiles).length) = true := bne_iff_ne.mpr h
  unfold match_titles_to_files
  rw [hb]
  rfl

/-! Claim theorems. -/

/-- Claim C3: for a Title List and duplicate-free Candidate File Set of
equal cardinality N where, at the moment each track is processed (last
title first, claimed candidates removed), exactly one candidate matches
by track number or title substring, the Track Matcher succeeds and
returns exactly N pairs in Title List order, the claimed files forming a
permutation of (hence a bijection onto) the candidate set. -/
theorem c3_unique_matching (title_list dirFiles : List String)
    (hnd : (music_files_of dirFiles).Nodup)
    (hlen : title_list.length = (music_files_of dirFiles).length)
    (huniq : unique_run title_list.length 0 title_list.reverse (music_files_of dirFiles) = true) :
    ∃ m, match_titles_to_files title_list dirFiles = Except.ok m ∧
      m.length = title_list.length ∧
      m.map Prod.fst = title_list ∧
      (m.map Prod.snd).Nodup ∧
      List.Perm (m.map Prod.snd) (music_files_of dirFiles) := by
  obtain ⟨m, hok, hfst, hsnd⟩ :=
    match_loop_unique_ok title_list.length title_list.reverse 0 (music_files_of dirFiles)
      hnd (by simpa using hlen) huniq
  refine ⟨m, ?_, ?_, ?_, ?_, hsnd⟩
  · have hb : (title_list.length != (music_files_of dirFiles).length) = false := by
      simp [hlen]
    unfold match_titles_to_files
    rw [hb]
    exact hok
  · have := congrArg List.length hfst
    simpa using this
  · simpa using hfst
  · exact hsnd.nodup_iff.mpr hnd

/-- Witness for C3 at a concrete two-track album. -/
theorem c3_unique_matching_witness :
    (music_files_of ["01-A.wav", "02-B.wav"]).Nodup ∧
    (["A", "B"] : List String).length = (music_files_of ["01-A.wav", "02-B.wav"]).length ∧
    unique_run 2 0 (["A", "B"] : List String).reverse (music_files_of ["01-A.wav", "02-B.wav"]) = true ∧
    ∃ m, match_titles_to_files ["A", "B"] ["01-A.wav", "02-B.wav"] = Except.ok m ∧
      m.length = (["A", "B"] : List String).length ∧
      m.map Prod.fst = ["A", "B"] ∧
      (m.map Prod.snd).Nodup ∧
      List.Perm (m.map Prod.snd) (music_files_of ["01-A.wav", "02-B.wav"]) :=
  ⟨by decide, by decide, by decide,
    c3_unique_matching ["A", "B"] ["01-A.wav", "02-B.wav"] (by decide) (by decide) (by decide)⟩

/-- Claim C6: whenever the Title List length differs from the audio-file
count of the directory, the matcher fails at once with the
count-mismatch error reporting both counts, producing no mapping. -/
theorem c6_count_mismatch (title_list dirFiles : List String)
    (h : title_list.length ≠ (music_files_of dirFiles).length) :
    match_titles_to_files title_list dirFiles =
      Except.error (.countMismatch (music_files_of dirFiles).length title_list.length) :=
  match_titles_to_files_len_ne title_list dirFiles h

/-- Witness for C6: the spec's own scenario, one title against two
files. -/
theorem c6_count_mismatch_witness :
    match_titles_to_files ["Song"] ["1-Song.wav", "2-Other.wav"] =
      Except.error (.countMismatch 2 1) :=
  c6_count_mismatch ["Song"] ["1-Song.wav", "2-Other.wav"] (by decide)

/-- Claim C5 (code bug demonstration): with two remaining candidates both
containing the target track's number, the matcher's run reaches the
ambiguous branch with both conflicting candidates and claims neither
(no mapping is produced).  In the Python source this branch then crashes
while formatting its message: `','.join(possible_tracks)` is applied to
`pathlib.Path` objects and raises `TypeError`, so the raised error never
names the candidates. -/
theorem c5_ambiguous_two_candidates :
    match_titles_to_files ["A", "B"] ["2a.wav", "2b.wav"] =
      Except.error (.ambiguous 2 "B" ["2a.wav", "2b.wav"]) := rfl

/-- Claim C9: the spec's two-track scenario succeeds with exactly the
stated mapping, in either directory iteration order of the candidate
set. -/
theorem c9_intro_main_theme :
    match_titles_to_files ["Intro", "Main Theme"] ["cd01track01.wav", "02-Main-Theme.wav"] =
      Except.ok [("Intro", "cd01track01.wav"), ("Main Theme", "02-Main-Theme.wav")] ∧
    match_titles_to_files ["Intro", "Main Theme"] ["02-Main-Theme.wav", "cd01track01.wav"] =
      Except.ok [("Intro", "cd01track01.wav"), ("Main Theme", "02-Main-Theme.wav")] :=
  ⟨rfl, rfl⟩

/-- Claim C7 (code bug demonstration): the disc-index padding test is
`n < 9`, so disc 9 yields the stem "cd9track" with a single-digit disc
index, and its first relocated track is "cd9track01.wav" rather than the
two-digit-padded "cd09track01.wav"; neighbouring discs 8 and 10 do get
two-digit indices. -/
theorem c7_disc_nine_unpadded :
    prefix_for_disc 9 = "cd9track" ∧
    target_name (prefix_for_disc 9) 1 = "cd9track01.wav" ∧
    prefix_for_disc 8 = "cd08track" ∧
    prefix_for_disc 10 = "cd10track" ∧
    "cd9track01.wav" ≠ "cd09track01.wav" :=
  ⟨rfl, rfl, rfl, rfl, by decide⟩

/-- Claim C1 (code bug demonstration): `move_wav_files_to_album` counts
`wav.iterdir()` after the loop, so a live run — which has just moved
every file out of the scratch directory — returns 0, not the number of
relocated tracks.  Consequently a live two-disc run whose first disc
yields 10 tracks relocates disc 2's first ripped file (raw index 1)
under index 1, as "cd02track01.wav", instead of index 11. -/
theorem c1_live_run_offset_lost :
    move_wav_files_to_album
      ["track01.cdda.wav", "track02.cdda.wav", "track03.cdda.wav", "track04.cdda.wav",
       "track05.cdda.wav", "track06.cdda.wav", "track07.cdda.wav", "track08.cdda.wav",
       "track09.cdda.wav", "track10.cdda.wav"] 0 "cd01track" false =
      some ([("track01.cdda.wav", "cd01track01.wav"), ("track02.cdda.wav", "cd01track02.wav"),
             ("track03.cdda.wav", "cd01track03.wav"), ("track04.cdda.wav", "cd01track04.wav"),
             ("track05.cdda.wav", "cd01track05.wav"), ("track06.cdda.wav", "cd01track06.wav"),
             ("track07.cdda.wav", "cd01track07.wav"), ("track08.cdda.wav", "cd01track08.wav"),
             ("track09.cdda.wav", "cd01track09.wav"), ("track10.cdda.wav", "cd01track10.wav")],
            [], 0) ∧
    rip_album_from_cd
      [["track01.cdda.wav", "track02.cdda.wav", "track03.cdda.wav", "track04.cdda.wav",
        "track05.cdda.wav", "track06.cdda.wav", "track07.cdda.wav", "track08.cdda.wav",
        "track09.cdda.wav", "track10.cdda.wav"],
       ["track01.cdda.wav"]] false =
      some [("track01.cdda.wav", "cd01track01.wav"), ("track02.cdda.wav", "cd01track02.wav"),
            ("track03.cdda.wav", "cd01track03.wav"), ("track04.cdda.wav", "cd01track04.wav"),
            ("track05.cdda.wav", "cd01track05.wav"), ("track06.cdda.wav", "cd01track06.wav"),
            ("track07.cdda.wav", "cd01track07.wav"), ("track08.cdda.wav", "cd01track08.wav"),
            ("track09.cdda.wav", "cd01track09.wav"), ("track10.cdda.wav", "cd01track10.wav"),
            ("track01.cdda.wav", "cd02track01.wav")] :=
  ⟨rfl, rfl⟩

/-- Claim C2 (code bug demonstration): over the same per-disc scratch
contents, a dry run records disc 2's move with the accumulated offset
("cd02track02.wav") while a live run — whose per-disc return value is 0 —
executes it with no offset ("cd02track01.wav"); the recorded and executed
move lists therefore differ.  The dry run does leave the scratch
directory untouched (no file moves). -/
theorem c2_dry_run_records_different_pairs :
    rip_album_from_cd [["track01.cdda.wav"], ["track01.cdda.wav"]] true =
      some [("track01.cdda.wav", "cd01track01.wav"), ("track01.cdda.wav", "cd02track02.wav")] ∧
    rip_album_from_cd [["track01.cdda.wav"], ["track01.cdda.wav"]] false =
      some [("track01.cdda.wav", "cd01track01.wav"), ("track01.cdda.wav", "cd02track01.wav")] ∧
    rip_album_from_cd [["track01.cdda.wav"], ["track01.cdda.wav"]] true ≠
      rip_album_from_cd [["track01.cdda.wav"], ["track01.cdda.wav"]] false ∧
    move_wav_files_to_album ["track01.cdda.wav"] 0 "cd01track" true =
      some ([("track01.cdda.wav", "cd01track01.wav")], ["track01.cdda.wav"], 1) :=
  ⟨rfl, rfl, by decide, rfl⟩

/-- Counterexample to claim C8: a directory holding two `.json` files
does not make configuration resolution fail — it resolves to the first
`.json` file in iteration order. -/
theorem c8_two_json_files_no_failure :
    ((["a.json", "b.json"] : List String).filter (fun f => pySuffix f == ".json")).length = 2 ∧
    resolve_config_json ["a.json", "b.json"] = Except.ok "a.json" :=
  ⟨by decide, rfl⟩

/-- Claim C8 as amended: with no explicit path, resolution fails with
the missing-file error exactly when the directory holds zero `.json`
files, and otherwise resolves to the first `.json` file in directory
iteration order (multiple `.json` files cause no failure). -/
theorem c8_config_resolution (dirFiles : List String) :
    (dirFiles.filter (fun f => pySuffix f == ".json") = [] →
      resolve_config_json dirFiles = Except.error .noJsonFound) ∧
    ∀ g rest, dirFiles.filter (fun f => pySuffix f == ".json") = g :: rest →
      resolve_config_json dirFiles = Except.ok g := by
  constructor
  · intro h
    unfold resolve_config_json
    rw [h]
  · intro g rest h
    unfold resolve_config_json
    rw [h]

/-- Witness for C8's amended statement on both branches. -/
theorem c8_config_resolution_witness :
    resolve_config_json ["notes.txt"] = Except.error .noJsonFound ∧
    resolve_config_json ["cfg.json", "extra.json"] = Except.ok "cfg.json" :=
  ⟨(c8_config_resolution ["notes.txt"]).1 (by decide),
   (c8_config_resolution ["cfg.json", "extra.json"]).2 "cfg.json" ["extra.json"] (by decide)⟩

/-- The prompt loop ignores any leading run of unrecognized answers. -/
theorem ask_overwrite_skips_invalid (junk : List String)
    (hj : ∀ a ∈ junk, a ≠ "y" ∧ a ≠ "N") (rest : List String) :
    ask_overwrite (junk ++ rest) = ask_overwrite rest := by
  induction junk with
  | nil => rfl
  | cons a l ih =>
    rcases hj a (List.mem_cons_self a l) with ⟨hy, hn⟩
    have h1 : (a == "y") = false := by simpa using hy
    have h2 : (a == "N") = false := by simpa using hn
    simp only [List.cons_append, ask_overwrite, h1, h2, Bool.false_eq_true, if_false]
    exact ih fun b hb => hj b (List.mem_cons_of_mem a hb)

/-- Claim C10: when the target `.mp3` exists, the converter prompts
before transcoding; any sequence of unrecognized answers is re-solicited,
after which 'y' proceeds with the overwriting conversion and 'N' returns
the existing `.mp3` path without invoking the transcoder. -/
theorem c10_overwrite_prompt (wavStem : String) (junk : List String)
    (hj : ∀ a ∈ junk, a ≠ "y" ∧ a ≠ "N") :
    wav_to_mp3 wavStem true (junk ++ ["y"]) = some ⟨true, wavStem ++ ".mp3"⟩ ∧
    wav_to_mp3 wavStem true (junk ++ ["N"]) = some ⟨false, wavStem ++ ".mp3"⟩ := by
  have hy : ask_overwrite (junk ++ ["y"]) = some .proceed := by
    rw [ask_overwrite_skips_invalid junk hj ["y"]]; decide
  have hn : ask_overwrite (junk ++ ["N"]) = some .keep := by
    rw [ask_overwrite_skips_invalid junk hj ["N"]]; decide
  constructor
  · unfold wav_to_mp3
    rw [if_pos rfl, hy]
  · unfold wav_to_mp3
    rw [if_pos rfl, hn]

/-- Witness for C10: two invalid answers (note the capital "Y" is not
recognized) are re-prompted, then each recognized answer acts as
specified. -/
theorem c10_overwrite_prompt_witness :
    wav_to_mp3 "song" true (["maybe", "Y"] ++ ["y"]) = some ⟨true, "song.mp3"⟩ ∧
    wav_to_mp3 "song" true (["maybe", "Y"] ++ ["N"]) = some ⟨false, "song.mp3"⟩ :=
  c10_overwrite_prompt "song" ["maybe", "Y"] (by decide)

/-! Lemmas about stems and suffixes of created `.mp3` siblings. -/

theorem lastDotIdx_append_mp3 (d : List Char) :
    lastDotIdx (d ++ ('.' :: 'm' :: 'p' :: '3' :: [])) = some d.length := by
  induction d with
  | nil => rfl
  | cons c t ih =>
    rw [List.cons_append, lastDotIdx, ih]
    rfl

theorem pySuffix_mp3 (s : String) (h : s.data ≠ []) :
    pySuffix (s ++ ".mp3") = ".mp3" := by
  have hd : (s ++ ".mp3").data = s.data ++ ('.' :: 'm' :: 'p' :: '3' :: []) := rfl
  have hi : lastDotIdx (s ++ ".mp3").data = some s.data.length := by
    rw [hd]; exact lastDotIdx_append_mp3 s.data
  have h1 : 0 < s.data.length := List.length_pos.mpr h
  have h2 : s.data.length + 1 < (s ++ ".mp3").data.length := by
    rw [hd, List.length_append]
    simp only [List.length_cons, List.length_nil]
    omega
  unfold pySuffix
  rw [hi]
  show (if 0 < s.data.length && s.data.length + 1 < (s ++ ".mp3").data.length
        then String.mk ((s ++ ".mp3").data.drop s.data.length) else "") = ".mp3"
  rw [if_pos]
  · rw [hd, List.drop_left]
  · simp only [Bool.and_eq_true, decide_eq_true_eq]
    exact ⟨h1, h2⟩

/-- A file whose pathlib suffix is ".wav" has a nonempty stem and is the
concatenation of its stem and ".wav". -/
theorem pySuffix_wav_split (f : String) (h : pySuffix f = ".wav") :
    (pyStem f).data ≠ [] ∧ pyStem f ++ ".wav" = f := by
  unfold pySuffix at h
  cases hd : lastDotIdx f.data with
  | none =>
    rw [hd] at h
    replace h : ("" : String) = ".wav" := h
    exact absurd h (by decide)
  | some i =>
    rw [hd] at h
    replace h : (if 0 < i && i + 1 < f.data.length
        then String.mk (f.data.drop i) else "") = ".wav" := h
    by_cases hc : (0 < i && i + 1 < f.data.length) = true
    · rw [if_pos hc] at h
      simp only [Bool.and_eq_true, decide_eq_true_eq] at hc
      have hstem : pyStem f = String.mk (f.data.take i) := by
        unfold pyStem
        rw [hd]
        show (if 0 < i && i + 1 < f.data.length
              then String.mk (f.data.take i) else f) = String.mk (f.data.take i)
        rw [if_pos]
        simp only [Bool.and_eq_true, decide_eq_true_eq]
        exact hc
      have hlen : (f.data.take i).length = i := by
        rw [List.length_take]
        omega
      constructor
      · rw [hstem]
        show f.data.take i ≠ []
        intro he
        rw [he] at hlen
        simp only [List.length_nil] at hlen
        omega
      · rw [hstem, ← h]
        show String.mk (f.data.take i ++ f.data.drop i) = f
        rw [List.take_append_drop]
    · rw [if_neg hc] at h
      exact absurd h (by decide)

theorem is_audio_mp3_name (f : String) (h : pySuffix f = ".wav") :
    is_audio_file (pyStem f ++ ".mp3") = true := by
  have hne := (pySuffix_wav_split f h).1
  have hs := pySuffix_mp3 (pyStem f) hne
  unfold is_audio_file
  rw [hs]
  decide

theorem wav_mp3_names_audio (dirFiles : List String) :
    ∀ m ∈ wav_mp3_names dirFiles, is_audio_file m = true := by
  intro m hm
  rcases List.mem_map.mp hm with ⟨f, hf, rfl⟩
  have hfw : pySuffix f = ".wav" := by simpa using (List.mem_filter.mp hf).2
  exact is_audio_mp3_name f hfw

theorem wav_mp3_names_nodup (dirFiles : List String) (hnd : dirFiles.Nodup) :
    (wav_mp3_names dirFiles).Nodup := by
  unfold wav_mp3_names
  apply List.Nodup.map_on
  · intro x hx y hy hxy
    have hxw : pySuffix x = ".wav" := by simpa using (List.mem_filter.mp hx).2
    have hyw : pySuffix y = ".wav" := by simpa using (List.mem_filter.mp hy).2
    have hdata : (pyStem x).data ++ ('.' :: 'm' :: 'p' :: '3' :: []) =
        (pyStem y).data ++ ('.' :: 'm' :: 'p' :: '3' :: []) := congrArg String.data hxy
    have hstem : pyStem x = pyStem y := congrArg String.mk (List.append_cancel_right hdata)
    have hxs := (pySuffix_wav_split x hxw).2
    have hys := (pySuffix_wav_split y hyw).2
    rw [← hxs, ← hys, hstem]
  · exact hnd.filter _

theorem wav_mp3_names_fresh (dirFiles : List String)
    (hnc : ∀ f ∈ dirFiles, pySuffix f = ".wav" → (pyStem f ++ ".mp3") ∉ dirFiles) :
    ∀ m ∈ wav_mp3_names dirFiles, m ∉ dirFiles := by
  intro m hm
  rcases List.mem_map.mp hm with ⟨f, hf, rfl⟩
  rcases List.mem_filter.mp hf with ⟨hfd, hfw⟩
  exact hnc f hfd (by simpa using hfw)

/-- When no created `.mp3` name collides with the live directory, the
transcoding loop succeeds and appends exactly the `.mp3` siblings of the
snapshot's `.wav` files. -/
theorem transcode_step_ok :
    ∀ (snapshot cur : List String),
      (∀ m ∈ wav_mp3_names snapshot, m ∉ cur) →
      (wav_mp3_names snapshot).Nodup →
      transcode_step cur snapshot = some (cur ++ wav_mp3_names snapshot) := by
  intro snapshot
  induction snapshot with
  | nil =>
    intro cur _ _
    simp [transcode_step, wav_mp3_names]
  | cons f rest ih =>
    intro cur hnc hnd
    cases hw : pySuffix f == ".wav" with
    | true =>
      have hsplit : wav_mp3_names (f :: rest) =
          (pyStem f ++ ".mp3") :: wav_mp3_names rest := by
        simp [wav_mp3_names, List.filter_cons, hw]
      rw [hsplit] at hnc hnd
      have hmem : (pyStem f ++ ".mp3") ∉ cur := hnc _ (List.mem_cons_self _ _)
      rcases List.nodup_cons.mp hnd with ⟨hh, hnd'⟩
      have hrec := ih (cur ++ [pyStem f ++ ".mp3"])
        (fun m hm => by
          simp only [List.mem_append, List.mem_singleton]
          rintro (hcur | rfl)
          · exact hnc m (List.mem_cons_of_mem _ hm) hcur
          · exact hh hm)
        hnd'
      rw [transcode_step, hw]
      simp only [if_true]
      rw [if_neg hmem, hrec, hsplit]
      simp
    | false =>
      have hsplit : wav_mp3_names (f :: rest) = wav_mp3_names rest := by
        simp [wav_mp3_names, List.filter_cons, hw]
      rw [hsplit] at hnc hnd
      rw [transcode_step, hw]
      simp only [Bool.false_eq_true, if_false]
      rw [ih cur hnc hnd, hsplit]

theorem music_files_append_names (dirFiles : List String) :
    music_files_of (dirFiles ++ wav_mp3_names dirFiles) =
      music_files_of dirFiles ++ wav_mp3_names dirFiles := by
  unfold music_files_of
  rw [List.filter_append, List.filter_eq_self.mpr (wav_mp3_names_audio dirFiles)]

/-- Claim C4: with at least one `.wav` in the target directory, no output
directory, and no pre-existing sibling `.mp3` (which would trigger the
overwrite prompt), transcoding keeps every `.wav` and adds a sibling
`.mp3`; the matcher then counts both, so whenever the Title List length
equals the initial audio-file count it raises the count-mismatch error
and the tagging step is never reached (the pipeline result is that
error, not a tag-call list). -/
theorem c4_transcode_causes_count_mismatch (titles dirFiles : List String)
    (hnd : dirFiles.Nodup)
    (hwav : dirFiles.filter (fun f => pySuffix f == ".wav") ≠ [])
    (hnc : ∀ f ∈ dirFiles, pySuffix f = ".wav" → (pyStem f ++ ".mp3") ∉ dirFiles)
    (hlen : titles.length = (music_files_of dirFiles).length) :
    wav_to_mp3_all dirFiles = some (dirFiles ++ wav_mp3_names dirFiles) ∧
    populate_album_metadata titles dirFiles =
      some (Except.error (MatchErr.countMismatch
        (titles.length + (dirFiles.filter (fun f => pySuffix f == ".wav")).length)
        titles.length)) := by
  have hfresh := wav_mp3_names_fresh dirFiles hnc
  have hnames := wav_mp3_names_nodup dirFiles hnd
  have htrans : wav_to_mp3_all dirFiles = some (dirFiles ++ wav_mp3_names dirFiles) :=
    transcode_step_ok dirFiles dirFiles hfresh hnames
  have hwc : 0 < (dirFiles.filter (fun f => pySuffix f == ".wav")).length :=
    List.length_pos.mpr hwav
  have hcount : (music_files_of (dirFiles ++ wav_mp3_names dirFiles)).length =
      titles.length + (dirFiles.filter (fun f => pySuffix f == ".wav")).length := by
    rw [music_files_append_names, List.length_append, ← hlen]
    unfold wav_mp3_names
    rw [List.length_map]
  have hne : titles.length ≠ (music_files_of (dirFiles ++ wav_mp3_names dirFiles)).length := by
    rw [hcount]
    omega
  have hmatch := match_titles_to_files_len_ne titles (dirFiles ++ wav_mp3_names dirFiles) hne
  refine ⟨htrans, ?_⟩
  unfold populate_album_metadata
  rw [htrans]
  show some (match match_titles_to_files titles (dirFiles ++ wav_mp3_names dirFiles) with
    | .error e => Except.error e
    | .ok mapping => Except.ok (tag_calls mapping)) = _
  rw [hmatch, hcount]

/-- Witness for C4: one `.wav` file, one title — after transcoding the
matcher sees two audio files against one title. -/
theorem c4_transcode_causes_count_mismatch_witness :
    wav_to_mp3_all ["a.wav"] = some (["a.wav"] ++ wav_mp3_names ["a.wav"]) ∧
    populate_album_metadata ["a"] ["a.wav"] =
      some (Except.error (MatchErr.countMismatch 2 1)) :=
  c4_transcode_causes_count_mismatch ["a"] ["a.wav"] (by decide) (by decide)
    (by decide) (by decide)
